import Mathlib

/-!
Shallow embedding of the ArduinoWatchdog library (src/Watchdog.h,
src/Watchdog.cpp) for an AVR (ATmega328-class) target: `int` and
`unsigned int` are 16-bit, `unsigned long long` is 64-bit, the watchdog
control register WDTCSR has bits WDP0..WDP3 (0,1,2,5), WDE (3), WDCE (4),
WDIE (6), and MCUSR has the WDRF flag at bit 3.  All machine integers are
modelled as `Nat` with explicit wrapping (`% 2 ^ 64`, `% 65536`) at the
points where the C++ types wrap; the signed 16-bit intermediate in
`Watchdog::Wait` is modelled through `Int`.
-/

namespace Watchdog

/-- Timeout codes from avr/wdt.h. -/
def WDTO_1S : Nat := 6

def WDTO_2S : Nat := 7

def WDTO_4S : Nat := 8

def WDTO_8S : Nat := 9

/-- Bit value of WDE (bit 3) in WDTCSR. -/
def WDE : Nat := 8

/-- Bit value of WDCE (bit 4) in WDTCSR. -/
def WDCE : Nat := 16

/-- Bit value of WDIE (bit 6) in WDTCSR. -/
def WDIE : Nat := 64

/-- Bit value of WDRF (bit 3) in MCUSR. -/
def WDRF : Nat := 8

/-- Modulus of `unsigned long long` (64-bit on avr-gcc). -/
def U64 : Nat := 2 ^ 64

/-- The state visible to the translated program: the two volatile counters
`_sleepOrWaitCount` and `_waitTotal` (64-bit, kept in `Nat`), the static
`_wdto`, the hardware registers WDTCSR and MCUSR, the global
interrupt-enable flag (SREG I bit), the watchdog's own timer counter
(reset by `wdt_reset()`), and `other`, a stand-in for all remaining
foreground-visible state, written by nothing in this file. -/
structure WDState where
  sleepOrWaitCount : Nat
  waitTotal : Nat
  wdto : Nat
  wdtcsr : Nat
  mcusr : Nat
  sregI : Bool
  timer : Nat
  other : Nat
  deriving DecidableEq

/-- `Watchdog::DeterminePeriod` (Watchdog.cpp lines 12-29): cascade from
highest to lowest supported step, with 0 mapped to the 8 s step. -/
def DeterminePeriod (periodInSeconds : Nat) : Nat :=
  if periodInSeconds ≥ 8 ∨ periodInSeconds = 0 then WDTO_8S
  else if periodInSeconds ≥ 4 then WDTO_4S
  else if periodInSeconds ≥ 2 then WDTO_2S
  else WDTO_1S

/-- Seconds per timeout step, following the branch structure used by
`Sleep`/`Wait` (divisor 8/4/2, otherwise the period is taken as-is,
i.e. divisor 1 for the 1 s step). -/
def stepSeconds (wdto : Nat) : Nat :=
  if wdto = WDTO_8S then 8
  else if wdto = WDTO_4S then 4
  else if wdto = WDTO_2S then 2
  else 1

/-- The byte written to WDTCSR by `Watchdog::Configure` (lines 35-40):
prescaler bits from `_wdto`, WDE always set, WDIE iff `sleepOrWait`. -/
def wdpsVal (wdto : Nat) (sleepOrWait : Bool) : Nat :=
  (if wdto &&& 8 ≠ 0 then 32 else 0)
    ||| (if wdto &&& 4 ≠ 0 then 4 else 0)
    ||| (if wdto &&& 2 ≠ 0 then 2 else 0)
    ||| (if wdto &&& 1 ≠ 0 then 1 else 0)
    ||| WDE
    ||| (if sleepOrWait then WDIE else 0)

/-- `Configure`, step 1: `noInterrupts()`. -/
def cfg1 (s : WDState) : WDState := {s with sregI := false}

/-- `Configure`, step 2: `MCUSR &= ~_BV(WDRF)` (247 = 0xF7). -/
def cfg2 (s : WDState) : WDState := {cfg1 s with mcusr := (cfg1 s).mcusr &&& 247}

/-- `Configure`, step 3: the unlock write `WDTCSR = _BV(WDCE) | _BV(WDE)`. -/
def cfg3 (s : WDState) : WDState := {cfg2 s with wdtcsr := WDCE ||| WDE}

/-- `Configure`, step 4: the configuration write `WDTCSR = wdps`
(`wdps` was computed from `_wdto` at function entry). -/
def cfg4 (sleepOrWait : Bool) (s : WDState) : WDState :=
  {cfg3 s with wdtcsr := wdpsVal s.wdto sleepOrWait}

/-- `Configure`, step 5: `interrupts()` (an unconditional `sei()`). -/
def cfg5 (sleepOrWait : Bool) (s : WDState) : WDState :=
  {cfg4 sleepOrWait s with sregI := true}

/-- `Watchdog::Configure` (Watchdog.cpp lines 33-84), finishing with
`wdt_reset()` which restarts the watchdog timer counter. -/
def Configure (sleepOrWait : Bool) (s : WDState) : WDState :=
  {cfg5 sleepOrWait s with timer := 0}

/-- `wdt_disable()` called by the constructor: the watchdog control
register is cleared. -/
def wdt_disable (s : WDState) : WDState := {s with wdtcsr := 0}

/-- `wdt_reset()`: restart the watchdog timer counter. -/
def wdt_reset (s : WDState) : WDState := {s with timer := 0}

/-- The constructor `Watchdog::Watchdog` (lines 87-92):
`wdt_disable(); _wdto = DeterminePeriod(periodInSeconds);`. -/
def construct (periodInSeconds : Nat) (s : WDState) : WDState :=
  {wdt_disable s with wdto := DeterminePeriod periodInSeconds}

/-- State at program start: the file-scope initializers
`_sleepOrWaitCount = 0`, `_waitTotal = 1`, `_wdto = WDTO_8S`
(Watchdog.cpp lines 8-10).  Registers are taken as zero and interrupts
enabled, the usual state when a sketch reaches `setup()`. -/
def initState : WDState :=
  { sleepOrWaitCount := 0
    waitTotal := 1
    wdto := WDTO_8S
    wdtcsr := 0
    mcusr := 0
    sregI := true
    timer := 0
    other := 0 }

/-- Decision part of `ISR(WDT_vect)` (lines 195-205), run on the state in
which the counter has already been incremented. -/
def ISR_step (s : WDState) : WDState :=
  if s.sleepOrWaitCount < s.waitTotal then Configure true s
  else if s.sleepOrWaitCount = s.waitTotal ∧ s.waitTotal ≠ 0 then Configure false s
  else s

/-- `ISR(WDT_vect)` (Watchdog.cpp lines 191-206): increment the 64-bit
cycle counter, then re-arm, finalize, or do nothing. -/
def ISR_WDT (s : WDState) : WDState :=
  ISR_step {s with sleepOrWaitCount := (s.sleepOrWaitCount + 1) % U64}

/-- The `ncycles` computation shared by `Sleep` (lines 97-107); all
arithmetic is in `unsigned long long`. -/
def sleepNcycles (wdto d : Nat) : Nat :=
  if wdto = WDTO_8S then d / 8
  else if wdto = WDTO_4S then d / 4
  else if wdto = WDTO_2S then d / 2
  else d

/-- State on entering `Sleep`'s while loop: hardware armed in Interrupt
Mode (`Configure(true)`, line 109) and `_sleepOrWaitCount = 0`
(line 122). -/
def sleepEntry (s : WDState) : WDState :=
  {Configure true s with sleepOrWaitCount := 0}

/-- The `while (_sleepOrWaitCount < ncycles)` loop of `Sleep`
(lines 124-138) under the assumption that each pass through
`sleep_mode()` is ended by exactly one firing of `ISR(WDT_vect)`; the
foreground then calls `Configure(true)` before re-testing the condition.
`fuel` bounds the recursion; the second component counts the number of
low-power-sleep iterations performed. -/
def sleepLoop : Nat → Nat → WDState → WDState × Nat
  | 0, _, s => (s, 0)
  | fuel + 1, ncycles, s =>
    if s.sleepOrWaitCount < ncycles then
      ((sleepLoop fuel ncycles (Configure true (ISR_WDT s))).1,
       (sleepLoop fuel ncycles (Configure true (ISR_WDT s))).2 + 1)
    else (s, 0)

/-- `Watchdog::Sleep` (lines 95-144) as a whole run: compute `ncycles`,
arm and zero the counter, run the sleep loop, and finish with
`Configure()` (Reset Mode).  Returns the final state and the number of
sleep iterations performed. -/
def SleepRun (d : Nat) (s : WDState) : WDState × Nat :=
  (Configure false
      (sleepLoop (sleepNcycles s.wdto d + 1) (sleepNcycles s.wdto d) (sleepEntry s)).1,
   (sleepLoop (sleepNcycles s.wdto d + 1) (sleepNcycles s.wdto d) (sleepEntry s)).2)

/-- Conversion `unsigned long long` → `int` (16-bit, avr-gcc semantics:
reduce modulo 2^16 and reinterpret as two's complement). -/
def toInt16 (n : Nat) : Int :=
  if n % 65536 < 32768 then (n % 65536 : Int) else (n % 65536 : Int) - 65536

/-- Conversion `int` → `unsigned long long` (reduce modulo 2^64). -/
def toUInt64ofInt (i : Int) : Nat := (i % (U64 : Int)).toNat

/-- `Watchdog::Wait` (lines 147-165): the cycle count is computed through
a 16-bit `int` local (`int ncycles = periodInSeconds;` then possibly
overwritten by a 64-bit quotient converted to `int`), stored into the
64-bit `_waitTotal`, the counter is zeroed and Interrupt Mode armed. -/
def Wait (d : Nat) (s : WDState) : WDState :=
  Configure true
    {s with
      sleepOrWaitCount := 0
      waitTotal :=
        toUInt64ofInt
          (if s.wdto = WDTO_8S then toInt16 (d / 8)
           else if s.wdto = WDTO_4S then toInt16 (d / 4)
           else if s.wdto = WDTO_2S then toInt16 (d / 2)
           else toInt16 d)}

/-- `Reset`, first statement (lines 170-173): pet the dog when WDE or
WDRF is set. -/
def Reset1 (s : WDState) : WDState :=
  if s.wdtcsr &&& WDE ≠ 0 ∨ s.mcusr &&& WDRF ≠ 0 then wdt_reset s else s

/-- `Reset`, second block (lines 175-181): on a non-zero period,
re-quantize `_wdto`, clear `_waitTotal` and reprogram Reset Mode. -/
def Reset2 (p : Nat) (s : WDState) : WDState :=
  if p ≠ 0 then Configure false {s with wdto := DeterminePeriod p, waitTotal := 0} else s

/-- `Reset`, third block (lines 183-187): if `_waitTotal` is non-zero,
clear it and reprogram Reset Mode. -/
def Reset3 (s : WDState) : WDState :=
  if s.waitTotal ≠ 0 then Configure false {s with waitTotal := 0} else s

/-- `Watchdog::Reset` (Watchdog.cpp lines 167-188). -/
def Reset (p : Nat) (s : WDState) : WDState := Reset3 (Reset2 p (Reset1 s))

/-- Interrupt Mode: WDIE set in WDTCSR (expiry raises the interrupt);
with WDIE clear and WDE set the expiry resets the device (Reset Mode). -/
def InterruptMode (s : WDState) : Prop := s.wdtcsr &&& WDIE ≠ 0

instance (s : WDState) : Decidable (InterruptMode s) := by
  unfold InterruptMode; infer_instance

/-- Position of the foreground inside `Sleep`: about to test the loop
condition, blocked in `sleep_mode()`, woken but not yet re-armed, or
returned. -/
inductive SleepPhase where
  | testLoop
  | sleeping
  | woken
  | done
  deriving DecidableEq

/-- A configuration of an in-flight `Sleep` call: machine state,
foreground position, and the loop bound `ncycles`. -/
structure SleepExec where
  st : WDState
  phase : SleepPhase
  ncycles : Nat
  deriving DecidableEq

/-- Step relation of a `Sleep` sequence: the loop test, a hardware expiry
running `ISR(WDT_vect)` as one atomic action, the foreground re-arm
(`sleep_disable(); Configure(true);`), and loop exit
(`Configure()`, Reset Mode). -/
inductive SleepStep : SleepExec → SleepExec → Prop where
  | enter (s : WDState) (n : Nat) :
      s.sleepOrWaitCount < n →
      SleepStep ⟨s, SleepPhase.testLoop, n⟩ ⟨s, SleepPhase.sleeping, n⟩
  | expiry (s : WDState) (n : Nat) :
      SleepStep ⟨s, SleepPhase.sleeping, n⟩ ⟨ISR_WDT s, SleepPhase.woken, n⟩
  | rearm (s : WDState) (n : Nat) :
      SleepStep ⟨s, SleepPhase.woken, n⟩ ⟨Configure true s, SleepPhase.testLoop, n⟩
  | exitLoop (s : WDState) (n : Nat) :
      ¬ s.sleepOrWaitCount < n →
      SleepStep ⟨s, SleepPhase.testLoop, n⟩ ⟨Configure false s, SleepPhase.done, n⟩

/-- Start of a `Sleep d` sequence from machine state `s`. -/
def sleepStart (d : Nat) (s : WDState) : SleepExec :=
  ⟨sleepEntry s, SleepPhase.testLoop, sleepNcycles s.wdto d⟩

/-- Invariant actually maintained by the `Sleep` machine: Interrupt Mode
holds at every loop test and throughout the low-power state. -/
def SleepInv (e : SleepExec) : Prop :=
  (e.phase = SleepPhase.testLoop ∨ e.phase = SleepPhase.sleeping) → InterruptMode e.st

/-- Concrete state used for the C2 scenario: the boot state with the
watchdog armed in Interrupt Mode. -/
def cex2 : WDState := {initState with wdtcsr := wdpsVal WDTO_8S true}

/-- Concrete state with no pending wait: boot state after construction
and a plain `Reset()`. -/
def cex3 : WDState := Reset 0 (construct 0 initState)

/-- Concrete state whose current step is the 1 s step. -/
def cex4 : WDState := construct 1 initState

/-- Concrete state after `Wait(1)` with the 8 s step: `ncycles = 0`, so
no wait is pending, yet the hardware is armed in Interrupt Mode. -/
def cex6 : WDState := Wait 1 (construct 0 initState)

/-- Concrete state entered with interrupts disabled. -/
def cex8 : WDState := {initState with sregI := false}

/-- Constructed-with-default state used by the C5 scenario. -/
def c5s : WDState := construct 0 initState

/-- Start of `Sleep(16)` from the freshly constructed state. -/
def c5start : SleepExec := sleepStart 16 c5s

/-- `ncycles` of that sequence (= 2). -/
def c5n : Nat := sleepNcycles c5s.wdto 16

/-- The sequence after entering the low-power state. -/
def c5mid : SleepExec := ⟨c5start.st, SleepPhase.sleeping, c5n⟩

/-- The sequence just after the first hardware expiry, before the
foreground re-arms. -/
def c5bad : SleepExec := ⟨ISR_WDT c5start.st, SleepPhase.woken, c5n⟩

/-! ### Basic lemmas about the embedded operations -/

theorem Configure_count (b : Bool) (s : WDState) :
    (Configure b s).sleepOrWaitCount = s.sleepOrWaitCount := rfl

theorem Configure_waitTotal (b : Bool) (s : WDState) :
    (Configure b s).waitTotal = s.waitTotal := rfl

theorem Configure_wdto (b : Bool) (s : WDState) :
    (Configure b s).wdto = s.wdto := rfl

theorem Configure_wdtcsr (b : Bool) (s : WDState) :
    (Configure b s).wdtcsr = wdpsVal s.wdto b := rfl

theorem wdps_and_true (w : Nat) : wdpsVal w true &&& WDIE = WDIE := by
  unfold wdpsVal WDE WDIE
  split <;> split <;> split <;> split <;> decide

theorem wdps_and_false (w : Nat) : wdpsVal w false &&& WDIE = 0 := by
  unfold wdpsVal WDE WDIE
  split <;> split <;> split <;> split <;> decide

theorem interruptMode_configure_true (s : WDState) : InterruptMode (Configure true s) := by
  unfold InterruptMode
  rw [Configure_wdtcsr, wdps_and_true]
  decide

theorem not_interruptMode_configure_false (s : WDState) :
    ¬ InterruptMode (Configure false s) := by
  unfold InterruptMode
  rw [Configure_wdtcsr, wdps_and_false]
  exact fun h => h rfl

theorem ISR_step_count (s : WDState) :
    (ISR_step s).sleepOrWaitCount = s.sleepOrWaitCount := by
  unfold ISR_step
  split
  · rfl
  split
  · rfl
  · rfl

theorem ISR_step_waitTotal (s : WDState) : (ISR_step s).waitTotal = s.waitTotal := by
  unfold ISR_step
  split
  · rfl
  split
  · rfl
  · rfl

theorem ISR_step_wdto (s : WDState) : (ISR_step s).wdto = s.wdto := by
  unfold ISR_step
  split
  · rfl
  split
  · rfl
  · rfl

theorem ISR_count (s : WDState) :
    (ISR_WDT s).sleepOrWaitCount = (s.sleepOrWaitCount + 1) % U64 := by
  unfold ISR_WDT
  rw [ISR_step_count]

theorem ISR_waitTotal (s : WDState) : (ISR_WDT s).waitTotal = s.waitTotal := by
  unfold ISR_WDT
  rw [ISR_step_waitTotal]

theorem ISR_wdto (s : WDState) : (ISR_WDT s).wdto = s.wdto := by
  unfold ISR_WDT
  rw [ISR_step_wdto]

/-- The three exhaustive behaviours of `ISR(WDT_vect)`, phrased on the
pre-state. -/
theorem ISR_WDT_cases (s : WDState) :
    ((s.sleepOrWaitCount + 1) % U64 < s.waitTotal →
      ISR_WDT s = Configure true {s with sleepOrWaitCount := (s.sleepOrWaitCount + 1) % U64}) ∧
    ((s.sleepOrWaitCount + 1) % U64 = s.waitTotal → s.waitTotal ≠ 0 →
      ISR_WDT s = Configure false {s with sleepOrWaitCount := (s.sleepOrWaitCount + 1) % U64}) ∧
    (¬ (s.sleepOrWaitCount + 1) % U64 < s.waitTotal →
      ¬ ((s.sleepOrWaitCount + 1) % U64 = s.waitTotal ∧ s.waitTotal ≠ 0) →
      ISR_WDT s = {s with sleepOrWaitCount := (s.sleepOrWaitCount + 1) % U64}) := by
  unfold ISR_WDT ISR_step
  refine ⟨fun h => ?_, fun h1 h2 => ?_, fun h1 h2 => ?_⟩
  · rw [if_pos h]
  · have hne : ¬ ((s.sleepOrWaitCount + 1) % U64 < s.waitTotal) := by omega
    rw [if_neg hne, if_pos ⟨h1, h2⟩]
  · rw [if_neg h1, if_neg h2]

theorem sleepNcycles_le (w d : Nat) : sleepNcycles w d ≤ d := by
  unfold sleepNcycles
  split
  · exact Nat.div_le_self d 8
  split
  · exact Nat.div_le_self d 4
  split
  · exact Nat.div_le_self d 2
  · exact Nat.le_refl d

theorem sleepLoop_waitTotal (fuel : Nat) :
    ∀ (n : Nat) (s : WDState), (sleepLoop fuel n s).1.waitTotal = s.waitTotal := by
  induction fuel with
  | zero => intro n s; rfl
  | succ f ih =>
    intro n s
    simp only [sleepLoop]
    split
    · show (sleepLoop f n (Configure true (ISR_WDT s))).1.waitTotal = s.waitTotal
      rw [ih, Configure_waitTotal, ISR_waitTotal]
    · rfl

theorem sleepLoop_spec (fuel : Nat) :
    ∀ (n : Nat) (s : WDState), n < U64 → s.sleepOrWaitCount ≤ n →
      n - s.sleepOrWaitCount < fuel →
      (sleepLoop fuel n s).1.sleepOrWaitCount = n ∧
      (sleepLoop fuel n s).2 = n - s.sleepOrWaitCount := by
  induction fuel with
  | zero =>
    intro n s _ _ h3
    exact absurd h3 (Nat.not_lt_zero _)
  | succ f ih =>
    intro n s hU hle hfuel
    simp only [sleepLoop]
    by_cases h : s.sleepOrWaitCount < n
    · rw [if_pos h]
      have hcount : (Configure true (ISR_WDT s)).sleepOrWaitCount = s.sleepOrWaitCount + 1 := by
        rw [Configure_count, ISR_count]
        exact Nat.mod_eq_of_lt (by omega)
      have hrec := ih n (Configure true (ISR_WDT s)) hU (by omega) (by omega)
      refine ⟨hrec.1, ?_⟩
      show (sleepLoop f n (Configure true (ISR_WDT s))).2 + 1 = n - s.sleepOrWaitCount
      rw [hrec.2, hcount]
      omega
    · rw [if_neg h]
      constructor
      · show s.sleepOrWaitCount = n
        omega
      · show 0 = n - s.sleepOrWaitCount
        omega

theorem SleepRun_spec (d : Nat) (s : WDState) (hd : d < U64) :
    (SleepRun d s).2 = sleepNcycles s.wdto d ∧
    (SleepRun d s).1.sleepOrWaitCount = sleepNcycles s.wdto d := by
  have hn : sleepNcycles s.wdto d < U64 := lt_of_le_of_lt (sleepNcycles_le _ _) hd
  have h0 : (sleepEntry s).sleepOrWaitCount = 0 := rfl
  have hrun := sleepLoop_spec (sleepNcycles s.wdto d + 1) (sleepNcycles s.wdto d)
    (sleepEntry s) hn (by omega) (by omega)
  constructor
  · simp only [SleepRun]
    rw [hrun.2, h0]
    exact Nat.sub_zero _
  · simp only [SleepRun]
    rw [Configure_count, hrun.1]

theorem Wait_count (d : Nat) (s : WDState) : (Wait d s).sleepOrWaitCount = 0 := rfl

theorem Wait_wdto (d : Nat) (s : WDState) : (Wait d s).wdto = s.wdto := rfl

theorem Wait_wdtcsr (d : Nat) (s : WDState) :
    (Wait d s).wdtcsr = wdpsVal s.wdto true := rfl

theorem Wait_waitTotal (d : Nat) (s : WDState) :
    (Wait d s).waitTotal =
      toUInt64ofInt
        (if s.wdto = WDTO_8S then toInt16 (d / 8)
         else if s.wdto = WDTO_4S then toInt16 (d / 4)
         else if s.wdto = WDTO_2S then toInt16 (d / 2)
         else toInt16 d) := rfl

theorem toUInt64ofInt_lt (i : Int) : toUInt64ofInt i < U64 := by
  unfold toUInt64ofInt
  have hpos : (0 : Int) < (U64 : Int) := by
    have : (0 : Nat) < U64 := by norm_num [U64]
    exact_mod_cast this
  have h1 := Int.emod_nonneg i (ne_of_gt hpos)
  have h2 := Int.emod_lt_of_pos i hpos
  omega

theorem Wait_waitTotal_lt (d : Nat) (s : WDState) : (Wait d s).waitTotal < U64 := by
  rw [Wait_waitTotal]
  exact toUInt64ofInt_lt _

/-- Round-trip through the 16-bit `int` is the identity when the value
fits (0 ≤ m ≤ INT_MAX = 32767). -/
theorem store16_exact (m : Nat) (hm : m ≤ 32767) : toUInt64ofInt (toInt16 m) = m := by
  have hmod : m % 65536 = m := Nat.mod_eq_of_lt (by omega)
  unfold toInt16 toUInt64ofInt
  rw [hmod, if_pos (by omega)]
  have hU : ((U64 : Nat) : Int) = 18446744073709551616 := by norm_num [U64]
  rw [hU]
  omega

theorem sleepStep_inv (e1 e2 : SleepExec) (h : SleepStep e1 e2) (h1 : SleepInv e1) :
    SleepInv e2 := by
  cases h with
  | enter s n hlt =>
    intro _
    exact h1 (Or.inl rfl)
  | expiry s n =>
    intro hph
    rcases hph with hph | hph <;> simp at hph
  | rearm s n =>
    intro _
    exact interruptMode_configure_true s
  | exitLoop s n hge =>
    intro hph
    rcases hph with hph | hph <;> simp at hph

theorem reach_inv (a b : SleepExec) (h : Relation.ReflTransGen SleepStep a b)
    (ha : SleepInv a) : SleepInv b := by
  induction h with
  | refl => exact ha
  | tail hab hbc ih => exact sleepStep_inv _ _ hbc ih

theorem sleepStart_inv (d : Nat) (s : WDState) : SleepInv (sleepStart d s) := by
  intro _
  show InterruptMode (sleepEntry s)
  unfold InterruptMode sleepEntry
  show (Configure true s).wdtcsr &&& WDIE ≠ 0
  rw [Configure_wdtcsr, wdps_and_true]
  decide

/-- Trajectory of repeated `ISR(WDT_vect)` firings from a state with the
counter at 0, a non-zero 64-bit target `t`, and Interrupt Mode armed:
the counter tracks the number of firings, the target is never written,
and the mode stays Interrupt Mode until the `t`-th firing programs Reset
Mode. -/
theorem ISR_iter_spec (t : Nat) (s : WDState) (h0 : s.sleepOrWaitCount = 0)
    (hw : s.waitTotal = t) (ht : t < U64) (harm : s.wdtcsr = wdpsVal s.wdto true)
    (htpos : 0 < t) :
    ∀ k, k ≤ t →
      (ISR_WDT^[k] s).sleepOrWaitCount = k ∧
      (ISR_WDT^[k] s).waitTotal = t ∧
      (ISR_WDT^[k] s).wdto = s.wdto ∧
      (ISR_WDT^[k] s).wdtcsr =
        (if k = t then wdpsVal s.wdto false else wdpsVal s.wdto true) := by
  intro k
  induction k with
  | zero =>
    intro _
    refine ⟨h0, hw, rfl, ?_⟩
    rw [if_neg (by omega)]
    exact harm
  | succ k ih =>
    intro hk1
    obtain ⟨hc, hwt, hwd, hcsr⟩ := ih (Nat.le_of_succ_le hk1)
    have hmod : ((ISR_WDT^[k] s).sleepOrWaitCount + 1) % U64 = k + 1 := by
      rw [hc]
      exact Nat.mod_eq_of_lt (by omega)
    rw [Function.iterate_succ_apply']
    rcases Nat.lt_or_ge (k + 1) t with hlt | hge
    · have hstep := (ISR_WDT_cases (ISR_WDT^[k] s)).1 (by rw [hmod, hwt]; exact hlt)
      rw [hstep]
      refine ⟨?_, ?_, ?_, ?_⟩
      · rw [Configure_count]
        exact hmod
      · rw [Configure_waitTotal]
        exact hwt
      · rw [Configure_wdto]
        exact hwd
      · rw [Configure_wdtcsr, if_neg (by omega)]
        show wdpsVal (ISR_WDT^[k] s).wdto true = wdpsVal s.wdto true
        rw [hwd]
    · have heq : k + 1 = t := by omega
      have hstep := (ISR_WDT_cases (ISR_WDT^[k] s)).2.1
        (by rw [hmod, hwt]; exact heq) (by rw [hwt]; omega)
      rw [hstep]
      refine ⟨?_, ?_, ?_, ?_⟩
      · rw [Configure_count]
        exact hmod
      · rw [Configure_waitTotal]
        exact hwt
      · rw [Configure_wdto]
        exact hwd
      · rw [Configure_wdtcsr, if_pos heq]
        show wdpsVal (ISR_WDT^[k] s).wdto false = wdpsVal s.wdto false
        rw [hwd]

theorem dp_of_ge8 (s : Nat) (h : 8 ≤ s) : DeterminePeriod s = WDTO_8S := by
  unfold DeterminePeriod
  rw [if_pos (Or.inl h)]

theorem dp_of_ge4 (s : Nat) (h4 : 4 ≤ s) (h8 : s < 8) : DeterminePeriod s = WDTO_4S := by
  unfold DeterminePeriod
  rw [if_neg (by omega), if_pos h4]

theorem dp_of_ge2 (s : Nat) (h2 : 2 ≤ s) (h4 : s < 4) : DeterminePeriod s = WDTO_2S := by
  unfold DeterminePeriod
  rw [if_neg (by omega), if_neg (by omega), if_pos h2]

theorem dp_of_one (s : Nat) (h1 : 1 ≤ s) (h2 : s < 2) : DeterminePeriod s = WDTO_1S := by
  unfold DeterminePeriod
  rw [if_neg (by omega), if_neg (by omega), if_neg (by omega)]

theorem dp_cases (s : Nat) (h1 : 1 ≤ s) :
    (s < 2 ∧ DeterminePeriod s = WDTO_1S) ∨
    (2 ≤ s ∧ s < 4 ∧ DeterminePeriod s = WDTO_2S) ∨
    (4 ≤ s ∧ s < 8 ∧ DeterminePeriod s = WDTO_4S) ∨
    (8 ≤ s ∧ DeterminePeriod s = WDTO_8S) := by
  rcases Nat.lt_or_ge s 2 with h2 | h2
  · exact Or.inl ⟨h2, dp_of_one s h1 h2⟩
  rcases Nat.lt_or_ge s 4 with h4 | h4
  · exact Or.inr (Or.inl ⟨h2, h4, dp_of_ge2 s h2 h4⟩)
  rcases Nat.lt_or_ge s 8 with h8 | h8
  · exact Or.inr (Or.inr (Or.inl ⟨h4, h8, dp_of_ge4 s h4 h8⟩))
  · exact Or.inr (Or.inr (Or.inr ⟨h8, dp_of_ge8 s h8⟩))

theorem dp_mem (s : Nat) : stepSeconds (DeterminePeriod s) ∈ ([1, 2, 4, 8] : List Nat) := by
  rcases Nat.eq_zero_or_pos s with h0 | h1
  · rw [h0]
    decide
  rcases dp_cases s h1 with ⟨_, e⟩ | ⟨_, _, e⟩ | ⟨_, _, e⟩ | ⟨_, e⟩ <;> rw [e] <;> decide

theorem dp_le (s : Nat) (h1 : 1 ≤ s) : stepSeconds (DeterminePeriod s) ≤ s := by
  rcases dp_cases s h1 with ⟨h, e⟩ | ⟨h, h', e⟩ | ⟨h, h', e⟩ | ⟨h, e⟩ <;> rw [e] <;>
    simp [stepSeconds, WDTO_1S, WDTO_2S, WDTO_4S, WDTO_8S] <;> omega

theorem dp_largest (s t : Nat) (h1 : 1 ≤ s) (ht : t ∈ ([1, 2, 4, 8] : List Nat))
    (hts : t ≤ s) : t ≤ stepSeconds (DeterminePeriod s) := by
  rcases dp_cases s h1 with ⟨h, e⟩ | ⟨h, h', e⟩ | ⟨h, h', e⟩ | ⟨h, e⟩ <;> rw [e] <;>
    fin_cases ht <;> simp [stepSeconds, WDTO_1S, WDTO_2S, WDTO_4S, WDTO_8S] <;> omega

theorem dp_code_mem (s : Nat) :
    DeterminePeriod s ∈ ([WDTO_1S, WDTO_2S, WDTO_4S, WDTO_8S] : List Nat) := by
  unfold DeterminePeriod
  split
  · decide
  split
  · decide
  split
  · decide
  · decide

/-- Claim C1: `DeterminePeriod` maps every non-negative integer duration to
the largest supported Timeout Step ({1,2,4,8} s) not exceeding it; a
request of exactly 0 yields the largest step (8 s); in particular
`DeterminePeriod 3` is the 2 s step, `DeterminePeriod 0` and
`DeterminePeriod 9` the 8 s step.  (Over the integers, the only request
smaller than the smallest step is 0, which the 0-rule covers.) -/
theorem C1_determine_period (s : Nat) :
    DeterminePeriod 0 = WDTO_8S ∧
    DeterminePeriod 3 = WDTO_2S ∧
    DeterminePeriod 9 = WDTO_8S ∧
    stepSeconds (DeterminePeriod s) ∈ ([1, 2, 4, 8] : List Nat) ∧
    (1 ≤ s → stepSeconds (DeterminePeriod s) ≤ s ∧
      ∀ t ∈ ([1, 2, 4, 8] : List Nat), t ≤ s → t ≤ stepSeconds (DeterminePeriod s)) :=
  ⟨by decide, by decide, by decide, dp_mem s,
    fun h1 => ⟨dp_le s h1, fun t ht hts => dp_largest s t h1 ht hts⟩⟩

/-- Witness for C1 at the concrete request 5 seconds. -/
theorem C1_witness : stepSeconds (DeterminePeriod 5) ≤ 5 :=
  ((C1_determine_period 5).2.2.2.2 (by decide)).1

/-- Claim C7 as stated is false: `DeterminePeriod` is not monotonic
non-decreasing, because a request of 0 yields the 8 s step while a
request of 1 yields the 1 s step (0 ≤ 1 but 8 > 1, and the codes also
decrease, 9 > 6). -/
theorem C7_counterexample :
    (0 : Nat) ≤ 1 ∧
    ¬ stepSeconds (DeterminePeriod 0) ≤ stepSeconds (DeterminePeriod 1) ∧
    ¬ DeterminePeriod 0 ≤ DeterminePeriod 1 := by
  decide

/-- Claim C7 amended: `DeterminePeriod` is monotonic non-decreasing on
requests of at least 1 second (both in step seconds and in timeout
codes); monotonicity fails only at the special-cased request 0. -/
theorem C7_monotone_from_one (s1 s2 : Nat) (h1 : 1 ≤ s1) (h12 : s1 ≤ s2) :
    stepSeconds (DeterminePeriod s1) ≤ stepSeconds (DeterminePeriod s2) ∧
    DeterminePeriod s1 ≤ DeterminePeriod s2 := by
  have hstep : stepSeconds (DeterminePeriod s1) ≤ stepSeconds (DeterminePeriod s2) :=
    dp_largest s2 _ (le_trans h1 h12) (dp_mem s1) (le_trans (dp_le s1 h1) h12)
  refine ⟨hstep, ?_⟩
  have m1 := dp_code_mem s1
  have m2 := dp_code_mem s2
  simp only [List.mem_cons, List.not_mem_nil, or_false] at m1 m2
  rcases m1 with e1 | e1 | e1 | e1 <;> rcases m2 with e2 | e2 | e2 | e2 <;>
    rw [e1, e2] at hstep ⊢ <;>
    simp [stepSeconds, WDTO_1S, WDTO_2S, WDTO_4S, WDTO_8S] at hstep ⊢

/-- Witness for the amended C7 at the concrete pair 2 ≤ 5. -/
theorem C7_witness : stepSeconds (DeterminePeriod 2) ≤ stepSeconds (DeterminePeriod 5) :=
  (C7_monotone_from_one 2 5 (by decide) (by decide)).1

/-- Claim C2 as stated is false: at the boot state armed in Interrupt Mode
(counter 0, `_waitTotal` 1), the firing that makes the incremented counter
equal the non-zero target does NOT clear the Target Cycle Count — the
handler never writes `_waitTotal`, which stays 1. -/
theorem C2_counterexample :
    (cex2.sleepOrWaitCount + 1) % U64 = cex2.waitTotal ∧
    cex2.waitTotal ≠ 0 ∧
    (ISR_WDT cex2).waitTotal = 1 ∧
    ¬ (ISR_WDT cex2).waitTotal = 0 := by
  decide

/-- Claim C2 amended: when the handler fires and the incremented Cycle
Counter equals a non-zero Target Cycle Count, it programs the hardware to
Reset Mode, but it leaves the Target Cycle Count unchanged (the target is
cleared only by `Reset` or overwritten by the next `Wait`). -/
theorem C2_reset_mode_on_completion (s : WDState)
    (h1 : (s.sleepOrWaitCount + 1) % U64 = s.waitTotal) (h2 : s.waitTotal ≠ 0) :
    (ISR_WDT s).wdtcsr = wdpsVal s.wdto false ∧
    ¬ InterruptMode (ISR_WDT s) ∧
    (ISR_WDT s).waitTotal = s.waitTotal := by
  have hstep := (ISR_WDT_cases s).2.1 h1 h2
  rw [hstep]
  exact ⟨Configure_wdtcsr false _, not_interruptMode_configure_false _,
    Configure_waitTotal false _⟩

/-- Witness for the amended C2 at the boot state armed in Interrupt Mode. -/
theorem C2_witness :
    (ISR_WDT cex2).wdtcsr = wdpsVal cex2.wdto false ∧
    ¬ InterruptMode (ISR_WDT cex2) ∧
    (ISR_WDT cex2).waitTotal = cex2.waitTotal :=
  C2_reset_mode_on_completion cex2 (by decide) (by decide)

/-- Claim C3 as stated is false: when the Target Cycle Count is zero the
handler does NOT re-arm Interrupt Mode; it performs no hardware call at
all — it only increments the counter, and the mode stays whatever it was
(here Reset Mode, reached via `Reset()` after construction). -/
theorem C3_counterexample :
    cex3.waitTotal = 0 ∧
    ISR_WDT cex3 = {cex3 with sleepOrWaitCount := 1} ∧
    ¬ InterruptMode (ISR_WDT cex3) ∧
    ISR_WDT cex3 ≠ Configure true {cex3 with sleepOrWaitCount := 1} := by
  decide

/-- Claim C3 amended: when the Target Cycle Count is zero (the `Sleep`
path), the handler leaves everything except the Cycle Counter unchanged —
it neither re-arms Interrupt Mode nor reprograms anything; during `Sleep`
the re-arming is done by the foreground loop before each iteration. -/
theorem C3_no_rearm_when_target_zero (s : WDState) (h : s.waitTotal = 0) :
    ISR_WDT s = {s with sleepOrWaitCount := (s.sleepOrWaitCount + 1) % U64} := by
  apply (ISR_WDT_cases s).2.2
  · rw [h]
    exact Nat.not_lt_zero _
  · rintro ⟨-, hne⟩
    exact hne h

/-- Witness for the amended C3 at the no-pending-wait state. -/
theorem C3_witness :
    ISR_WDT cex3 = {cex3 with sleepOrWaitCount := (cex3.sleepOrWaitCount + 1) % U64} :=
  C3_no_rearm_when_target_zero cex3 (by decide)

/-- Claim C4 as stated is false: with the 1 s step, `Wait(65536)` stores a
Target Cycle Count of 0, not `floor(65536 / 1) = 65536`, because `Wait`
passes the cycle count through a 16-bit `int` local. -/
theorem C4_counterexample :
    cex4.wdto = WDTO_1S ∧
    stepSeconds cex4.wdto = 1 ∧
    (65536 : Nat) / stepSeconds cex4.wdto = 65536 ∧
    (Wait 65536 cex4).waitTotal = 0 := by
  decide

/-- Claim C4 amended: `Sleep` computes
`ncycles = floor(d / stepSeconds(CurrentStep))` exactly, in 64-bit
unsigned arithmetic; `Wait` computes the same quotient but stores it
through a 16-bit signed `int`, so the stored Target Cycle Count equals
the quotient exactly when the quotient is at most 32767 (AVR `INT_MAX`);
larger quotients are stored wrapped. -/
theorem C4_ncycles (d : Nat) (s : WDState) (_hd : d < U64) :
    sleepNcycles s.wdto d = d / stepSeconds s.wdto ∧
    (d / stepSeconds s.wdto ≤ 32767 →
      (Wait d s).waitTotal = d / stepSeconds s.wdto) := by
  constructor
  · unfold sleepNcycles stepSeconds
    by_cases h8 : s.wdto = WDTO_8S
    · rw [if_pos h8, if_pos h8]
    rw [if_neg h8, if_neg h8]
    by_cases h4 : s.wdto = WDTO_4S
    · rw [if_pos h4, if_pos h4]
    rw [if_neg h4, if_neg h4]
    by_cases h2 : s.wdto = WDTO_2S
    · rw [if_pos h2, if_pos h2]
    rw [if_neg h2, if_neg h2, Nat.div_one]
  · intro hle
    rw [Wait_waitTotal]
    revert hle
    unfold stepSeconds
    by_cases h8 : s.wdto = WDTO_8S
    · rw [if_pos h8, if_pos h8]
      exact fun hle => store16_exact _ hle
    rw [if_neg h8, if_neg h8]
    by_cases h4 : s.wdto = WDTO_4S
    · rw [if_pos h4, if_pos h4]
      exact fun hle => store16_exact _ hle
    rw [if_neg h4, if_neg h4]
    by_cases h2 : s.wdto = WDTO_2S
    · rw [if_pos h2, if_pos h2]
      exact fun hle => store16_exact _ hle
    rw [if_neg h2, if_neg h2, Nat.div_one]
    exact fun hle => store16_exact _ hle

/-- Witness for the amended C4: `Wait(16)` with the 8 s step stores 2. -/
theorem C4_witness :
    sleepNcycles (construct 0 initState).wdto 16 =
      16 / stepSeconds (construct 0 initState).wdto ∧
    (Wait 16 (construct 0 initState)).waitTotal =
      16 / stepSeconds (construct 0 initState).wdto :=
  ⟨(C4_ncycles 16 (construct 0 initState) (by norm_num [U64])).1,
    (C4_ncycles 16 (construct 0 initState) (by norm_num [U64])).2 (by decide)⟩

/-- Claim C6 as stated is false: after `Wait(1)` with the 8 s step the
stored target is 1/8 = 0, so a subsequent `Reset()` takes neither
reprogramming branch and leaves the hardware armed in Interrupt Mode,
not Reset Mode. -/
theorem C6_counterexample :
    cex6.waitTotal = 0 ∧
    InterruptMode cex6 ∧
    Reset 0 cex6 = wdt_reset cex6 ∧
    InterruptMode (Reset 0 cex6) := by
  decide

/-- Claim C6 amended: `Reset()` with no arguments always leaves the Target
Cycle Count at zero, and if a wait was pending (target non-zero) it also
reprograms the hardware in Reset Mode; but when no wait was pending it
does not touch WDTCSR, so the Operating Mode is left as it was. -/
theorem C6_reset_noarg (s : WDState) :
    (Reset 0 s).waitTotal = 0 ∧
    (s.waitTotal ≠ 0 →
      (Reset 0 s).wdtcsr = wdpsVal s.wdto false ∧ ¬ InterruptMode (Reset 0 s)) ∧
    (s.waitTotal = 0 → (Reset 0 s).wdtcsr = s.wdtcsr) := by
  have h2 : Reset 0 s = Reset3 (Reset1 s) := by
    unfold Reset Reset2
    rw [if_neg (fun h => h rfl)]
  have hw1 : (Reset1 s).waitTotal = s.waitTotal := by
    unfold Reset1 wdt_reset
    split
    · rfl
    · rfl
  have hc1 : (Reset1 s).wdtcsr = s.wdtcsr := by
    unfold Reset1 wdt_reset
    split
    · rfl
    · rfl
  have hd1 : (Reset1 s).wdto = s.wdto := by
    unfold Reset1 wdt_reset
    split
    · rfl
    · rfl
  rw [h2]
  unfold Reset3
  by_cases hw : s.waitTotal = 0
  · rw [if_neg (by rw [hw1, hw]; exact fun h => h rfl)]
    exact ⟨by rw [hw1, hw], fun hne => absurd hw hne, fun _ => hc1⟩
  · rw [if_pos (by rw [hw1]; exact hw)]
    refine ⟨Configure_waitTotal false _, fun _ => ⟨?_, not_interruptMode_configure_false _⟩,
      fun h0 => absurd h0 hw⟩
    rw [Configure_wdtcsr]
    show wdpsVal (Reset1 s).wdto false = wdpsVal s.wdto false
    rw [hd1]

/-- Witness for the amended C6 at the boot state (pending target 1). -/
theorem C6_witness :
    (Reset 0 initState).waitTotal = 0 ∧
    (Reset 0 initState).wdtcsr = wdpsVal initState.wdto false :=
  ⟨(C6_reset_noarg initState).1, ((C6_reset_noarg initState).2.1 (by decide)).1⟩

/-- Claim C8 as stated is false: `Configure` does not restore the global
interrupt-enable flag to its prior state — `interrupts()` enables it
unconditionally, so entering with interrupts disabled returns with them
enabled. -/
theorem C8_counterexample :
    cex8.sregI = false ∧ (Configure false cex8).sregI = true := by
  decide

/-- Claim C8 amended: `Configure` runs the whole unlock-then-write
sequence (WDRF clear, WDCE|WDE unlock write, configuration write) with
the interrupt flag cleared, and unconditionally enables interrupts (not
restoring the entry state) before returning; apart from WDTCSR, the
MCUSR reset flag, the timer counter and the interrupt flag, all
foreground-visible state is unchanged. -/
theorem C8_configure_effects (b : Bool) (s : WDState) :
    (cfg1 s).sregI = false ∧
    (cfg2 s).sregI = false ∧
    (cfg3 s).sregI = false ∧
    (cfg4 b s).sregI = false ∧
    (Configure b s).sregI = true ∧
    (Configure b s).sleepOrWaitCount = s.sleepOrWaitCount ∧
    (Configure b s).waitTotal = s.waitTotal ∧
    (Configure b s).wdto = s.wdto ∧
    (Configure b s).other = s.other ∧
    (Configure b s).wdtcsr = wdpsVal s.wdto b ∧
    (Configure b s).mcusr = s.mcusr &&& 247 ∧
    (Configure b s).timer = 0 :=
  ⟨rfl, rfl, rfl, rfl, rfl, rfl, rfl, rfl, rfl, rfl, rfl, rfl⟩

/-- Witness for the amended C8 at the boot state. -/
theorem C8_witness :
    (Configure true initState).sregI = true ∧
    (Configure true initState).wdtcsr = wdpsVal initState.wdto true := by
  obtain ⟨-, -, -, -, h5, -, -, -, -, h10, -, -⟩ := C8_configure_effects true initState
  exact ⟨h5, h10⟩

/-- Claim C5 as stated is false: starting `Sleep(16)` from the freshly
constructed state (stale `_waitTotal` = 1), the very first hardware
expiry makes the handler program Reset Mode, reachable in two steps of
the sequence machine, while the sequence is still in progress (the
foreground has not exited the loop). -/
theorem C5_counterexample :
    Relation.ReflTransGen SleepStep c5start c5bad ∧
    c5bad.phase ≠ SleepPhase.done ∧
    ¬ InterruptMode c5bad.st := by
  refine ⟨?_, by decide, by decide⟩
  have h1 : SleepStep c5start c5mid := SleepStep.enter c5start.st c5n (by decide)
  have h2 : SleepStep c5mid c5bad := SleepStep.expiry c5start.st c5n
  exact Relation.ReflTransGen.head h1 (Relation.ReflTransGen.single h2)

/-- Claim C5 amended: during a `Sleep` sequence, Interrupt Mode holds at
every point where the foreground is about to sleep or is sleeping (the
loop re-arms before each iteration), but not necessarily in the window
between a handler firing and the foreground re-arm; during a `Wait`
sequence with non-zero stored target, Interrupt Mode holds after every
firing until the firing that reaches the target, which programs Reset
Mode before the sequence ends. -/
theorem C5_mode_invariant :
    (∀ (d : Nat) (s : WDState) (e : SleepExec),
      Relation.ReflTransGen SleepStep (sleepStart d s) e →
      e.phase = SleepPhase.sleeping → InterruptMode e.st) ∧
    (∀ (d : Nat) (s : WDState) (k : Nat),
      0 < (Wait d s).waitTotal → k ≤ (Wait d s).waitTotal →
      (k < (Wait d s).waitTotal → InterruptMode (ISR_WDT^[k] (Wait d s))) ∧
      (k = (Wait d s).waitTotal →
        (ISR_WDT^[k] (Wait d s)).wdtcsr = wdpsVal s.wdto false ∧
        ¬ InterruptMode (ISR_WDT^[k] (Wait d s)))) := by
  constructor
  · intro d s e hreach hph
    exact reach_inv _ _ hreach (sleepStart_inv d s) (Or.inr hph)
  · intro d s k hpos hk
    obtain ⟨hcnt, hwt, hwd, hcsr⟩ :=
      ISR_iter_spec ((Wait d s).waitTotal) (Wait d s) (Wait_count d s) rfl
        (Wait_waitTotal_lt d s) (Wait_wdtcsr d s) hpos k hk
    constructor
    · intro hklt
      unfold InterruptMode
      rw [hcsr, if_neg (by omega)]
      rw [show (Wait d s).wdto = s.wdto from Wait_wdto d s, wdps_and_true]
      decide
    · intro hkeq
      constructor
      · rw [hcsr, if_pos hkeq, Wait_wdto]
      · unfold InterruptMode
        rw [hcsr, if_pos hkeq, Wait_wdto, wdps_and_false]
        exact fun h => h rfl

/-- Witness for the amended C5: the sleeping configuration of the
`Sleep(16)` scenario is in Interrupt Mode, and the second firing of a
`Wait(20)` sequence (target 2) leaves Interrupt Mode. -/
theorem C5_witness :
    InterruptMode c5mid.st ∧
    ¬ InterruptMode (ISR_WDT^[2] (Wait 20 c5s)) := by
  constructor
  · exact C5_mode_invariant.1 16 c5s c5mid
      (Relation.ReflTransGen.single (SleepStep.enter c5start.st c5n (by decide))) rfl
  · exact (((C5_mode_invariant.2 20 c5s 2 (by decide) (by decide)).2) (by decide)).2

/-- Claim C9: `Sleep(d)` zeroes the Cycle Counter before the loop, and —
under the precondition, built into `sleepLoop`, that each wake from the
low-power state is caused by exactly one handler firing — the loop
performs exactly `ncycles` sleep iterations and the counter equals
`ncycles` when `Sleep` returns; in particular `Sleep(16)` with the 8 s
step performs exactly 2 iterations. -/
theorem C9_sleep_counts (d : Nat) (s : WDState) (hd : d < U64) :
    (sleepEntry s).sleepOrWaitCount = 0 ∧
    (SleepRun d s).2 = sleepNcycles s.wdto d ∧
    (SleepRun d s).1.sleepOrWaitCount = sleepNcycles s.wdto d ∧
    (s.wdto = WDTO_8S → (SleepRun 16 s).2 = 2) := by
  refine ⟨rfl, (SleepRun_spec d s hd).1, (SleepRun_spec d s hd).2, ?_⟩
  intro h8
  have h16 := (SleepRun_spec 16 s (by norm_num [U64])).1
  rw [h16, h8]
  decide

/-- Witness for C9: `Sleep(16)` from the default-constructed state (8 s
step) performs exactly 2 sleep iterations. -/
theorem C9_witness : (SleepRun 16 (construct 0 initState)).2 = 2 :=
  (C9_sleep_counts 16 (construct 0 initState) (by norm_num [U64])).2.2.2 (by decide)

/-- Claim C10: `_waitTotal` is initialized to 1 (not the no-pending-wait
value 0); before any `Wait`, arming Interrupt Mode on the constructed
state and firing the handler once increments the counter to 1, which
equals the non-zero target, so the handler programs Reset Mode instead of
re-arming; and `Sleep` never writes the Target Cycle Count, so a stale
non-zero target stays in effect throughout a `Sleep` run. -/
theorem C10_initial_target :
    initState.waitTotal = 1 ∧
    (Configure true (construct 0 initState)).sleepOrWaitCount = 0 ∧
    InterruptMode (Configure true (construct 0 initState)) ∧
    (ISR_WDT (Configure true (construct 0 initState))).sleepOrWaitCount = 1 ∧
    ¬ InterruptMode (ISR_WDT (Configure true (construct 0 initState))) ∧
    (ISR_WDT (Configure true (construct 0 initState))).wdtcsr = wdpsVal WDTO_8S false ∧
    (∀ (d : Nat) (s : WDState), (SleepRun d s).1.waitTotal = s.waitTotal) := by
  refine ⟨rfl, rfl, by decide, by decide, by decide, by decide, ?_⟩
  intro d s
  show (Configure false _).waitTotal = _
  rw [Configure_waitTotal, sleepLoop_waitTotal]
  rfl

/-- Witness instantiating C10's universally quantified part at
`Sleep(16)` from the boot state. -/
theorem C10_witness : (SleepRun 16 initState).1.waitTotal = initState.waitTotal :=
  C10_initial_target.2.2.2.2.2.2 16 initState

end Watchdog
